import Mathlib

/-!
Verification of the FFmpeg animated GIF muxer (`libavformat/gif.c`).

The muxer is modelled as pure functions from its inputs to the list of bytes
it appends to the output sink (`AVIOContext`).  Bytes are natural numbers
below 256; 64-bit timestamps are modelled as `Int` (the sentinel
`AV_NOPTS_VALUE` is `INT64_MIN`); 32-bit palette entries are naturals, read
modulo `2^32` exactly where the C code reads them.
-/

namespace GifMuxer

/-- One byte, as written by `avio_w8` (the C argument is truncated to 8 bits). -/
def avio_w8 (v : Nat) : List Nat := [v % 256]

/-- Two bytes, little endian, as written by `avio_wl16`. -/
def avio_wl16 (v : Nat) : List Nat := [v % 256, v / 256 % 256]

/-- Three bytes, big endian, as written by `avio_wb24`. -/
def avio_wb24 (v : Nat) : List Nat := [v / 65536 % 256, v / 256 % 256, v % 256]

/-- The bytes of an ASCII string literal, as written by `avio_write`. -/
def ascii (s : String) : List Nat := s.toList.map Char.toNat

/-- `AV_NOPTS_VALUE` is `INT64_MIN`. -/
def AV_NOPTS_VALUE : Int := -(2 ^ 63)

/-- `AVPALETTE_COUNT`: a palette has 256 entries. -/
def AVPALETTE_COUNT : Nat := 256

/-- Modelled from the spec: `av_clip_uint16` lives in `libavutil/common.h`,
which is not part of the sources here.  The spec states that the frame
duration is "clamped to the unsigned 16-bit range (negative or overflowing
deltas saturate rather than wrap or error)", so the clip is modelled as the
saturating clamp of an integer into `[0, 65535]`. -/
def av_clip_uint16 (a : Int) : Nat :=
  if a < 0 then 0 else if 65535 < a then 65535 else a.toNat

/-- The muxer's private context (`GIFContext`): the `loop` option and the
previous frame's timestamp.  (The `AVClass` pointer used for option handling
carries no muxing state and is omitted.) -/
structure GIFContext where
  loop : Nat
  prev_pts : Int
deriving Repr, DecidableEq

/-- `gif_image_write_header`: signature, logical-screen descriptor, optional
256-entry global palette (each entry masked with `0xffffff`, i.e. reduced
mod `2^24`, and written as a big-endian 24-bit value), then the NETSCAPE2.0
application extension carrying the loop count.  The C palette argument is a
pointer read at indices `0..255`; it is modelled as a list whose entries are
those 256 words. -/
def gif_image_write_header (width height loop_count : Nat)
    (palette : Option (List Nat)) : List Nat :=
  ascii "GIF" ++ ascii "89a" ++
  avio_wl16 width ++ avio_wl16 height ++
  (match palette with
   | some pal =>
       avio_w8 0xf7 ++ avio_w8 0x1f ++ avio_w8 0 ++
       (pal.map (fun v => avio_wb24 (v % 0x1000000))).flatten
   | none => avio_w8 0 ++ avio_w8 0 ++ avio_w8 0) ++
  avio_w8 0x21 ++ avio_w8 0xff ++ avio_w8 0x0b ++
  ascii "NETSCAPE2.0" ++
  avio_w8 0x03 ++ avio_w8 0x01 ++ avio_wl16 loop_count ++ avio_w8 0x00

/-- The pixel formats relevant to `gif_write_header`: `PAL8` plus the
systematic-palette formats, and two representatives of everything else. -/
inductive AVPixelFormat
  | pal8 | rgb8 | bgr8 | rgb4_byte | bgr4_byte | gray8 | rgb24 | yuv420p
deriving DecidableEq, Repr

/-- Modelled from the spec: `avpriv_set_systematic_pal2` (in
`libavutil/imgutils.c`, not part of the sources here) fills a 256-entry
systematic palette for the pixel formats that resolve to one and fails
(negative return) for every other format; the palette-indexed format `PAL8`
has no systematic palette.  The spec fixes only which formats resolve
("a pixel format resolvable to a palette (systematic palette) or already
palette-indexed"), not the entry values; no claim depends on the values, so
they are modelled as zeros. -/
def avpriv_set_systematic_pal2 : AVPixelFormat → Option (List Nat)
  | .rgb8 | .bgr8 | .rgb4_byte | .bgr4_byte | .gray8 =>
      some (List.replicate 256 0)
  | _ => none

inductive AVMediaType
  | video | audio | subtitle
deriving DecidableEq, Repr

inductive AVCodecID
  | gif | png | h264
deriving DecidableEq, Repr

/-- The fields of `AVCodecContext` that `gif_write_header` reads. -/
structure AVCodecContext where
  codec_type : AVMediaType
  codec_id : AVCodecID
  width : Nat
  height : Nat
  pix_fmt : AVPixelFormat
deriving DecidableEq, Repr

structure AVStream where
  codec : AVCodecContext
deriving DecidableEq, Repr

/-- The part of `AVFormatContext` the muxer reads: the stream list and the
`loop` private option (range `[0, 65535]`, default `0`, applied to
`GIFContext.loop` by the option system before the header is written). -/
structure AVFormatContext where
  streams : List AVStream
  loop : Nat
deriving DecidableEq, Repr

/-- Outcome of `gif_write_header`.  `written` holds the bytes appended to the
sink; `errorReturn` is the `AVERROR(EINVAL)` return (taken before anything is
written); `abort` is a failure of the always-enabled assertion `av_assert0`,
which terminates the process rather than returning (also before anything is
written). -/
inductive HeaderOutcome
  | written (bytes : List Nat)
  | errorReturn
  | abort
deriving DecidableEq, Repr

/-- `gif_write_header`: reject anything but a single GIF video stream, then
write the image header with the stream's systematic palette, or with no
global palette when the format is `PAL8`; any other non-systematic format
trips `av_assert0(video_enc->pix_fmt == AV_PIX_FMT_PAL8)`. -/
def gif_write_header (s : AVFormatContext) : HeaderOutcome :=
  match s.streams with
  | [st] =>
      if st.codec.codec_type ≠ AVMediaType.video ∨
         st.codec.codec_id ≠ AVCodecID.gif then
        HeaderOutcome.errorReturn
      else
        match avpriv_set_systematic_pal2 st.codec.pix_fmt with
        | none =>
            if st.codec.pix_fmt = AVPixelFormat.pal8 then
              HeaderOutcome.written
                (gif_image_write_header st.codec.width st.codec.height s.loop none)
            else
              HeaderOutcome.abort
        | some palette =>
            HeaderOutcome.written
              (gif_image_write_header st.codec.width st.codec.height s.loop
                (some palette))
  | _ => HeaderOutcome.errorReturn

/-- The `GIFContext` in effect when the first packet arrives: the private
context is allocated zero-filled (`av_mallocz`) by the generic muxer
framework and the `loop` option is then applied; `gif.c` itself never writes
`prev_pts` before `gif_write_packet`, so it starts at `0`. -/
def initContext (s : AVFormatContext) : GIFContext :=
  { loop := s.loop, prev_pts := 0 }

/-- The alpha byte of a 32-bit palette entry: `v >> 24` on a `uint32_t`. -/
def alphaOf (v : Nat) : Nat := v % 4294967296 / 16777216

/-- The transparency scan of `gif_write_packet`: walk the palette with the
running `smallest_alpha` (started at `0xff`), `transparent_color_index`
(started at `0x1f`) and loop counter `i`, updating both trackers whenever an
entry's alpha is strictly below the running minimum. -/
def palScan : List Nat → Nat → Nat → Nat → Nat × Nat
  | [], smallest_alpha, index, _ => (smallest_alpha, index)
  | v :: rest, smallest_alpha, index, i =>
      if alphaOf v < smallest_alpha then
        palScan rest (alphaOf v) i (i + 1)
      else
        palScan rest smallest_alpha index (i + 1)

/-- Flags byte and transparent-color index chosen by `gif_write_packet` for a
given (already size-validated) palette side-data value: defaults
`(0x04, 0x1f)`; with a palette, the scan result, with bit `0x01` OR-ed into
the flags when the smallest alpha found is below 128. -/
def transparencyOf (sidePal : Option (List Nat)) : Nat × Nat :=
  match sidePal with
  | none => (0x04, 0x1f)
  | some pal =>
      ((if (palScan pal 0xff 0x1f 0).1 < 128 then 0x04 ||| 0x01 else 0x04),
       (palScan pal 0xff 0x1f 0).2)

/-- The duration field computed by `gif_write_packet`:
`pkt->pts == AV_NOPTS_VALUE ? 0 : av_clip_uint16(pkt->pts - gif->prev_pts)`. -/
def durationOf (prev pts : Int) : Nat :=
  if pts = AV_NOPTS_VALUE then 0 else av_clip_uint16 (pts - prev)

/-- The fields of `AVPacket` the muxer reads: the presentation timestamp, the
payload bytes, and the `AV_PKT_DATA_PALETTE` side data (its 32-bit entries;
`AVPALETTE_SIZE` bytes corresponds to `AVPALETTE_COUNT` entries). -/
structure AVPacket where
  pts : Int
  data : List Nat
  palette : Option (List Nat)
deriving DecidableEq, Repr

/-- Error returns of `gif_write_packet` (`AVERROR_INVALIDDATA`). -/
inductive MuxError
  | averror_invaliddata
deriving DecidableEq, Repr

/-- The bytes `gif_write_packet` appends for one packet: the graphic control
extension block followed by the payload, verbatim. -/
def packetBytes (gif : GIFContext) (pkt : AVPacket) : List Nat :=
  avio_w8 0x21 ++ avio_w8 0xf9 ++ avio_w8 0x04 ++
  avio_w8 (transparencyOf pkt.palette).1 ++
  avio_wl16 (durationOf gif.prev_pts pkt.pts) ++
  avio_w8 (transparencyOf pkt.palette).2 ++ avio_w8 0x00 ++
  pkt.data

/-- `gif_write_packet`: validate the palette side data's size (this check
precedes every write, so an error means no byte is appended), then emit the
control block and payload and record the packet's timestamp in `prev_pts`
(unconditionally, sentinel included). -/
def gif_write_packet (gif : GIFContext) (pkt : AVPacket) :
    Except MuxError (List Nat × GIFContext) :=
  match pkt.palette with
  | some pal =>
      if pal.length ≠ AVPALETTE_COUNT then
        Except.error MuxError.averror_invaliddata
      else
        Except.ok (packetBytes gif pkt, { gif with prev_pts := pkt.pts })
  | none =>
      Except.ok (packetBytes gif pkt, { gif with prev_pts := pkt.pts })

/-- `gif_write_trailer`: the single GIF trailer byte. -/
def gif_write_trailer : List Nat := avio_w8 0x3b

/-- Sequential `gif_write_packet` calls, threading the context and
concatenating the appended bytes; the first error aborts the run. -/
def writePackets (gif : GIFContext) :
    List AVPacket → Except MuxError (List Nat × GIFContext)
  | [] => Except.ok ([], gif)
  | p :: ps =>
      match gif_write_packet gif p with
      | Except.error e => Except.error e
      | Except.ok (b, gif') =>
          match writePackets gif' ps with
          | Except.error e => Except.error e
          | Except.ok (bs, gif'') => Except.ok (b ++ bs, gif'')

/-- A whole muxing session: header, every packet in order, trailer.  `none`
when the header is rejected (or aborts) or some packet fails. -/
def gif_mux (s : AVFormatContext) (pkts : List AVPacket) : Option (List Nat) :=
  match gif_write_header s with
  | HeaderOutcome.written hb =>
      match writePackets (initContext s) pkts with
      | Except.ok (bs, _) => some (hb ++ bs ++ gif_write_trailer)
      | Except.error _ => none
  | _ => none

/-- Running minimum of the alphas of a palette suffix, from a given start
value; `minFold pal 0xff` is the value `smallest_alpha` holds after the scan. -/
def minFold (l : List Nat) (sa : Nat) : Nat :=
  l.foldl (fun m v => min m (alphaOf v)) sa

/-- The smallest alpha value among a palette's entries (every alpha is at
most `0xff`, so starting the fold at `0xff` computes the true minimum). -/
def minAlpha (pal : List Nat) : Nat := minFold pal 0xff

/-- The flags byte as the spec describes it: base `0x04`, with the
transparency bit `0x01` added when the palette's smallest alpha is below 128,
and plain `0x04` without a side-channel palette. -/
def flagsSpec : Option (List Nat) → Nat
  | none => 0x04
  | some pal => if minAlpha pal < 128 then 0x04 ||| 0x01 else 0x04

/-- The 8-byte graphic control extension block the spec describes:
`0x21 0xF9 0x04`, flags, duration little-endian, transparency index, `0x00`. -/
def controlBlock (flags duration tci : Nat) : List Nat :=
  [0x21, 0xf9, 0x04, flags, duration % 256, duration / 256 % 256, tci, 0x00]

/-- The byte stream the spec prescribes for the frame section: one control
block immediately followed by the frame's payload, per frame in order, with
the previous timestamp threaded through. -/
def sessionFrames : Int → List AVPacket → List Nat
  | _, [] => []
  | prev, p :: ps =>
      (controlBlock (transparencyOf p.palette).1 (durationOf prev p.pts)
        (transparencyOf p.palette).2 ++ p.data) ++ sessionFrames p.pts ps

theorem alphaOf_lt (v : Nat) : alphaOf v < 256 := by
  unfold alphaOf; omega

theorem minFold_nil (sa : Nat) : minFold [] sa = sa := rfl

theorem minFold_cons (v : Nat) (l : List Nat) (sa : Nat) :
    minFold (v :: l) sa = minFold l (min sa (alphaOf v)) := rfl

theorem minFold_le_init (l : List Nat) : ∀ sa, minFold l sa ≤ sa := by
  induction l with
  | nil => intro sa; exact Nat.le_refl sa
  | cons v t ih =>
      intro sa
      calc minFold (v :: t) sa = minFold t (min sa (alphaOf v)) := rfl
        _ ≤ min sa (alphaOf v) := ih _
        _ ≤ sa := Nat.min_le_left _ _

theorem minFold_eq_init (l : List Nat) :
    ∀ sa, minFold l sa = sa → ∀ v ∈ l, sa ≤ alphaOf v := by
  induction l with
  | nil => intro sa _ v hv; cases hv
  | cons u t ih =>
      intro sa h v hv
      have hle : minFold t (min sa (alphaOf u)) ≤ min sa (alphaOf u) :=
        minFold_le_init t _
      rw [minFold_cons] at h
      have hsa : sa ≤ min sa (alphaOf u) :=
        Nat.le_trans (Nat.le_of_eq h.symm) hle
      have hmin : min sa (alphaOf u) = sa :=
        Nat.le_antisymm (Nat.min_le_left _ _) hsa
      rcases List.mem_cons.mp hv with rfl | hv
      · exact Nat.le_trans hsa (Nat.min_le_right _ _)
      · exact ih sa (by rw [hmin] at h; exact h) v hv

theorem palScan_fst (l : List Nat) :
    ∀ sa idx i, (palScan l sa idx i).1 = minFold l sa := by
  induction l with
  | nil => intro sa idx i; rfl
  | cons v t ih =>
      intro sa idx i
      by_cases h : alphaOf v < sa
      · rw [palScan, if_pos h, ih, minFold_cons,
          Nat.min_eq_right (Nat.le_of_lt h)]
      · rw [palScan, if_neg h, ih, minFold_cons,
          Nat.min_eq_left (Nat.le_of_not_lt h)]

theorem palScan_noupdate (l : List Nat) :
    ∀ sa idx i, (∀ v ∈ l, sa ≤ alphaOf v) → palScan l sa idx i = (sa, idx) := by
  induction l with
  | nil => intro sa idx i _; rfl
  | cons v t ih =>
      intro sa idx i h
      have hv : sa ≤ alphaOf v := h v (List.mem_cons_self v t)
      rw [palScan, if_neg (Nat.not_lt.mpr hv)]
      exact ih sa idx (i + 1) (fun w hw => h w (List.mem_cons_of_mem v hw))

theorem palScan_min_lt (l : List Nat) :
    ∀ sa idx i, minFold l sa < sa →
      ∃ j, j < l.length ∧ (palScan l sa idx i).2 = i + j ∧
        alphaOf (l.getD j 0) = minFold l sa ∧
        ∀ k, k < j → minFold l sa < alphaOf (l.getD k 0) := by
  induction l with
  | nil => intro sa idx i h; exact absurd h (lt_irrefl sa)
  | cons v t ih =>
      intro sa idx i h
      by_cases hv : alphaOf v < sa
      · have hmincons : minFold (v :: t) sa = minFold t (alphaOf v) := by
          rw [minFold_cons, Nat.min_eq_right (Nat.le_of_lt hv)]
        by_cases hm : minFold t (alphaOf v) < alphaOf v
        · obtain ⟨j, hj, hsnd, hal, hfirst⟩ := ih (alphaOf v) i (i + 1) hm
          refine ⟨j + 1, by simpa using Nat.succ_lt_succ hj, ?_, ?_, ?_⟩
          · rw [palScan, if_pos hv, hsnd]; omega
          · rw [List.getD_cons_succ, hmincons]; exact hal
          · intro k hk
            cases k with
            | zero =>
                rw [List.getD_cons_zero, hmincons]; exact hm
            | succ k' =>
                rw [List.getD_cons_succ, hmincons]
                exact hfirst k' (Nat.lt_of_succ_lt_succ hk)
        · have heq : minFold t (alphaOf v) = alphaOf v :=
            Nat.le_antisymm (minFold_le_init t _) (Nat.le_of_not_lt hm)
          have hall : ∀ w ∈ t, alphaOf v ≤ alphaOf w := minFold_eq_init t _ heq
          refine ⟨0, Nat.succ_pos _, ?_, ?_, ?_⟩
          · rw [palScan, if_pos hv, palScan_noupdate t (alphaOf v) i (i + 1) hall]
            omega
          · rw [List.getD_cons_zero, hmincons, heq]
          · intro k hk; cases hk
      · have hsa : min sa (alphaOf v) = sa :=
          Nat.min_eq_left (Nat.le_of_not_lt hv)
        have hmincons : minFold (v :: t) sa = minFold t sa := by
          rw [minFold_cons, hsa]
        have hm : minFold t sa < sa := by rw [hmincons] at h; exact h
        obtain ⟨j, hj, hsnd, hal, hfirst⟩ := ih sa idx (i + 1) hm
        refine ⟨j + 1, by simpa using Nat.succ_lt_succ hj, ?_, ?_, ?_⟩
        · rw [palScan, if_neg hv, hsnd]; omega
        · rw [List.getD_cons_succ, hmincons]; exact hal
        · intro k hk
          cases k with
          | zero =>
              rw [List.getD_cons_zero, hmincons]
              exact Nat.lt_of_lt_of_le hm (Nat.le_of_not_lt hv)
          | succ k' =>
              rw [List.getD_cons_succ, hmincons]
              exact hfirst k' (Nat.lt_of_succ_lt_succ hk)

theorem minFold_all_ge (pal : List Nat) (h : ¬ minFold pal 0xff < 0xff) :
    ∀ v ∈ pal, 0xff ≤ alphaOf v := by
  have hge : minFold pal 0xff = 0xff :=
    Nat.le_antisymm (minFold_le_init pal _) (Nat.le_of_not_lt h)
  exact minFold_eq_init pal 0xff hge

theorem transparencyOf_snd_lt (pal : List Nat) (hl : pal.length = 256) :
    (transparencyOf (some pal)).2 < 256 := by
  simp only [transparencyOf]
  by_cases h : minFold pal 0xff < 0xff
  · obtain ⟨j, hj, hsnd, -, -⟩ := palScan_min_lt pal 0xff 0x1f 0 h
    simpa [hsnd, hl] using hj
  · rw [palScan_noupdate pal 0xff 0x1f 0 (minFold_all_ge pal h)]
    norm_num

theorem transparencyOf_fst (sidePal : Option (List Nat)) :
    (transparencyOf sidePal).1 = flagsSpec sidePal := by
  cases sidePal with
  | none => rfl
  | some pal =>
      simp only [transparencyOf, flagsSpec, palScan_fst]
      rfl

theorem transparencyOf_fst_lt (sidePal : Option (List Nat)) :
    (transparencyOf sidePal).1 < 256 := by
  rw [transparencyOf_fst]
  cases sidePal with
  | none => norm_num [flagsSpec]
  | some pal =>
      simp only [flagsSpec]
      split <;> decide

theorem flagsSpec_lt (sidePal : Option (List Nat)) : flagsSpec sidePal < 256 := by
  cases sidePal with
  | none => decide
  | some pal => simp only [flagsSpec]; split <;> decide

theorem transparencyOf_snd_alpha (pal : List Nat) (hl : pal.length = 256) :
    alphaOf (pal.getD (transparencyOf (some pal)).2 0) = minAlpha pal := by
  simp only [transparencyOf, minAlpha]
  by_cases h : minFold pal 0xff < 0xff
  · obtain ⟨j, hj, hsnd, hal, -⟩ := palScan_min_lt pal 0xff 0x1f 0 h
    rw [hsnd, Nat.zero_add]
    exact hal
  · rw [palScan_noupdate pal 0xff 0x1f 0 (minFold_all_ge pal h)]
    show alphaOf (pal.getD 31 0) = minFold pal 0xff
    have h31 : (31 : Nat) < pal.length := by omega
    have hmem : pal.getD 31 0 ∈ pal := by
      rw [List.getD_eq_getElem pal 0 h31]
      exact List.getElem_mem h31
    have hge : 0xff ≤ alphaOf (pal.getD 31 0) := minFold_all_ge pal h _ hmem
    have hlt := alphaOf_lt (pal.getD 31 0)
    have hmf : minFold pal 0xff = 0xff :=
      Nat.le_antisymm (minFold_le_init pal _) (Nat.le_of_not_lt h)
    omega

theorem gif_write_packet_valid (gif : GIFContext) (pkt : AVPacket)
    (hv : ∀ pal, pkt.palette = some pal → pal.length = 256) :
    gif_write_packet gif pkt =
      Except.ok (packetBytes gif pkt, { gif with prev_pts := pkt.pts }) := by
  rcases hpal : pkt.palette with _ | pal
  · simp [gif_write_packet, hpal]
  · have hlen : pal.length = 256 := hv pal hpal
    simp [gif_write_packet, hpal, AVPALETTE_COUNT, hlen]

theorem packetBytes_getElem3 (gif : GIFContext) (pkt : AVPacket) :
    (packetBytes gif pkt)[3]? = some (flagsSpec pkt.palette) := by
  simp [packetBytes, avio_w8, avio_wl16, transparencyOf_fst]
  exact flagsSpec_lt _

theorem packetBytes_getElem6 (gif : GIFContext) (pkt : AVPacket)
    (hv : ∀ pal, pkt.palette = some pal → pal.length = 256) :
    (packetBytes gif pkt)[6]? = some (transparencyOf pkt.palette).2 := by
  have hlt : (transparencyOf pkt.palette).2 < 256 := by
    rcases hpal : pkt.palette with _ | pal
    · simp [transparencyOf]
    · exact transparencyOf_snd_lt pal (hv pal hpal)
  simp [packetBytes, avio_w8, avio_wl16]
  exact hlt

theorem packetBytes_getElem4 (gif : GIFContext) (pkt : AVPacket) :
    (packetBytes gif pkt)[4]? =
      some (durationOf gif.prev_pts pkt.pts % 256) := by
  simp [packetBytes, avio_w8, avio_wl16]

theorem packetBytes_getElem5 (gif : GIFContext) (pkt : AVPacket) :
    (packetBytes gif pkt)[5]? =
      some (durationOf gif.prev_pts pkt.pts / 256 % 256) := by
  simp [packetBytes, avio_w8, avio_wl16]

/-- C2: with a valid 256-entry side-channel palette, the flags byte (offset 3
of the control block) is `0x04 ||| 0x01` exactly when the smallest alpha in
the palette is below 128 and `0x04` otherwise, and the transparency index
(offset 6) is a position holding an entry of that smallest alpha; with no
side-channel palette the flags byte is `0x04` and the index `0x1f`. -/
theorem write_packet_transparency (gif : GIFContext) (pkt : AVPacket)
    (hv : ∀ pal, pkt.palette = some pal → pal.length = 256) :
    gif_write_packet gif pkt =
      Except.ok (packetBytes gif pkt, { gif with prev_pts := pkt.pts }) ∧
    (packetBytes gif pkt)[3]? = some (flagsSpec pkt.palette) ∧
    (packetBytes gif pkt)[6]? = some (transparencyOf pkt.palette).2 ∧
    (∀ pal, pkt.palette = some pal →
       (transparencyOf (some pal)).2 < 256 ∧
       alphaOf (pal.getD (transparencyOf (some pal)).2 0) = minAlpha pal) ∧
    (pkt.palette = none → transparencyOf pkt.palette = (0x04, 0x1f)) := by
  refine ⟨gif_write_packet_valid gif pkt hv, packetBytes_getElem3 gif pkt,
    packetBytes_getElem6 gif pkt hv, ?_, ?_⟩
  · intro pal hpal
    exact ⟨transparencyOf_snd_lt pal (hv pal hpal),
      transparencyOf_snd_alpha pal (hv pal hpal)⟩
  · intro hnone; rw [hnone]; rfl

set_option maxRecDepth 4000 in
/-- C2 witness: a concrete 256-entry palette whose entry 7 has the uniquely
smallest alpha `50 < 128`; the flags byte is `0x05` and the transparency
index points at an entry of alpha 50. -/
theorem write_packet_transparency_witness :
    gif_write_packet { loop := 0, prev_pts := 0 }
        { pts := 10, data := [1, 2],
          palette := some (List.replicate 256 0xAA000000 |>.set 7 0x32000000) } =
      Except.ok
        (packetBytes { loop := 0, prev_pts := 0 }
          { pts := 10, data := [1, 2],
            palette := some (List.replicate 256 0xAA000000 |>.set 7 0x32000000) },
         { loop := 0, prev_pts := 10 }) ∧
    (packetBytes { loop := 0, prev_pts := 0 }
        { pts := 10, data := [1, 2],
          palette := some (List.replicate 256 0xAA000000 |>.set 7 0x32000000) })[3]? =
      some (flagsSpec (some (List.replicate 256 0xAA000000 |>.set 7 0x32000000))) ∧
    (packetBytes { loop := 0, prev_pts := 0 }
        { pts := 10, data := [1, 2],
          palette := some (List.replicate 256 0xAA000000 |>.set 7 0x32000000) })[6]? =
      some (transparencyOf (some (List.replicate 256 0xAA000000 |>.set 7 0x32000000))).2 ∧
    (∀ pal,
       some (List.replicate 256 0xAA000000 |>.set 7 0x32000000) = some pal →
       (transparencyOf (some pal)).2 < 256 ∧
       alphaOf (pal.getD (transparencyOf (some pal)).2 0) = minAlpha pal) ∧
    (some (List.replicate 256 0xAA000000 |>.set 7 0x32000000) = none →
       transparencyOf (some (List.replicate 256 0xAA000000 |>.set 7 0x32000000)) =
         (0x04, 0x1f)) :=
  write_packet_transparency { loop := 0, prev_pts := 0 }
    { pts := 10, data := [1, 2],
      palette := some (List.replicate 256 0xAA000000 |>.set 7 0x32000000) }
    (fun pal hpal => by cases hpal; simp)

/-- C3: the duration field (offsets 4 and 5 of the control block, little
endian) is 0 for the `AV_NOPTS_VALUE` sentinel and otherwise the difference
current timestamp minus `prev_pts` saturated into `[0, 65535]`; `prev_pts`
becomes the current packet's timestamp. -/
theorem write_packet_duration (gif : GIFContext) (pkt : AVPacket)
    (hv : ∀ pal, pkt.palette = some pal → pal.length = 256) :
    (∃ ctx, gif_write_packet gif pkt = Except.ok (packetBytes gif pkt, ctx) ∧
       ctx.prev_pts = pkt.pts) ∧
    (packetBytes gif pkt)[4]? = some (durationOf gif.prev_pts pkt.pts % 256) ∧
    (packetBytes gif pkt)[5]? =
      some (durationOf gif.prev_pts pkt.pts / 256 % 256) ∧
    (pkt.pts = AV_NOPTS_VALUE → durationOf gif.prev_pts pkt.pts = 0) ∧
    (pkt.pts ≠ AV_NOPTS_VALUE → pkt.pts - gif.prev_pts < 0 →
       durationOf gif.prev_pts pkt.pts = 0) ∧
    (pkt.pts ≠ AV_NOPTS_VALUE → 65535 < pkt.pts - gif.prev_pts →
       durationOf gif.prev_pts pkt.pts = 65535) ∧
    (pkt.pts ≠ AV_NOPTS_VALUE → 0 ≤ pkt.pts - gif.prev_pts →
       pkt.pts - gif.prev_pts ≤ 65535 →
       (durationOf gif.prev_pts pkt.pts : Int) = pkt.pts - gif.prev_pts) := by
  refine ⟨⟨{ gif with prev_pts := pkt.pts }, gif_write_packet_valid gif pkt hv, rfl⟩,
    packetBytes_getElem4 gif pkt, packetBytes_getElem5 gif pkt, ?_, ?_, ?_, ?_⟩
  · intro hs; simp [durationOf, hs]
  · intro hs hneg
    simp [durationOf, hs, av_clip_uint16, hneg]
  · intro hs hbig
    rw [durationOf, if_neg hs, av_clip_uint16, if_neg (by omega), if_pos hbig]
  · intro hs hge hle
    rw [durationOf, if_neg hs, av_clip_uint16, if_neg (by omega),
      if_neg (by omega)]
    exact Int.toNat_of_nonneg hge

/-- C3 witness: previous timestamp 100, current 150 gives duration 50, in
range; the sentinel and the clamping cases are covered through the
implications discharged at `pts = 150`. -/
theorem write_packet_duration_witness :
    (∃ ctx, gif_write_packet { loop := 0, prev_pts := 100 }
          { pts := 150, data := [], palette := none } =
        Except.ok (packetBytes { loop := 0, prev_pts := 100 }
          { pts := 150, data := [], palette := none }, ctx) ∧
       ctx.prev_pts = 150) ∧
    (packetBytes { loop := 0, prev_pts := 100 }
        { pts := 150, data := [], palette := none })[4]? =
      some (durationOf 100 150 % 256) ∧
    (packetBytes { loop := 0, prev_pts := 100 }
        { pts := 150, data := [], palette := none })[5]? =
      some (durationOf 100 150 / 256 % 256) ∧
    ((150 : Int) = AV_NOPTS_VALUE → durationOf 100 150 = 0) ∧
    ((150 : Int) ≠ AV_NOPTS_VALUE → (150 : Int) - 100 < 0 →
       durationOf 100 150 = 0) ∧
    ((150 : Int) ≠ AV_NOPTS_VALUE → 65535 < (150 : Int) - 100 →
       durationOf 100 150 = 65535) ∧
    ((150 : Int) ≠ AV_NOPTS_VALUE → 0 ≤ (150 : Int) - 100 →
       (150 : Int) - 100 ≤ 65535 →
       (durationOf 100 150 : Int) = (150 : Int) - 100) :=
  write_packet_duration { loop := 0, prev_pts := 100 }
    { pts := 150, data := [], palette := none }
    (fun pal hpal => by cases hpal)

/-- C5: a side-channel palette whose entry count differs from 256 makes
`gif_write_packet` return `AVERROR_INVALIDDATA` (the check precedes every
write, so nothing is emitted for the frame); in every other case the call
succeeds and emits the control block and payload. -/
theorem write_packet_palette_size (gif : GIFContext) (pkt : AVPacket) :
    (∀ pal, pkt.palette = some pal → pal.length ≠ 256 →
       gif_write_packet gif pkt = Except.error MuxError.averror_invaliddata) ∧
    ((∀ pal, pkt.palette = some pal → pal.length = 256) →
       gif_write_packet gif pkt =
         Except.ok (packetBytes gif pkt, { gif with prev_pts := pkt.pts })) := by
  constructor
  · intro pal hpal hlen
    simp [gif_write_packet, hpal, AVPALETTE_COUNT, hlen]
  · intro hv
    exact gif_write_packet_valid gif pkt hv

set_option maxRecDepth 4000 in
/-- C5 witness: a 255-entry palette is rejected with `AVERROR_INVALIDDATA`. -/
theorem write_packet_palette_size_witness :
    gif_write_packet { loop := 0, prev_pts := 0 }
        { pts := 0, data := [9], palette := some (List.replicate 255 0) } =
      Except.error MuxError.averror_invaliddata :=
  (write_packet_palette_size { loop := 0, prev_pts := 0 }
      { pts := 0, data := [9], palette := some (List.replicate 255 0) }).1
    (List.replicate 255 0) rfl (by simp)

/-- C1: the header byte layout — `GIF89a`, width and height little endian,
flags `0xF7`/background `0x1F` with a global palette and `0`/`0` without,
aspect byte `0`, the palette's 256 entries as RGB triples with the alpha
byte dropped, then `21 FF 0B`, `NETSCAPE2.0`, `03 01`, the loop count little
endian and a terminating `00`. -/
theorem header_layout (width height loop : Nat) (pal : Option (List Nat))
    (hw : width < 65536) (hh : height < 65536) (hl : loop < 65536)
    (hp : ∀ p, pal = some p → p.length = 256) :
    gif_image_write_header width height loop pal =
      ascii "GIF89a" ++
      [width % 256, width / 256, height % 256, height / 256] ++
      [if pal.isSome then 0xf7 else 0, if pal.isSome then 0x1f else 0, 0] ++
      (match pal with
       | some p =>
           (p.map (fun v => [v / 65536 % 256, v / 256 % 256, v % 256])).flatten
       | none => []) ++
      [0x21, 0xff, 0x0b] ++ ascii "NETSCAPE2.0" ++
      [0x03, 0x01, loop % 256, loop / 256, 0x00] := by
  have hsig : ascii "GIF" ++ ascii "89a" = ascii "GIF89a" := by decide
  have hfun : (fun v : Nat => avio_wb24 (v % 0x1000000)) =
      (fun v : Nat => [v / 65536 % 256, v / 256 % 256, v % 256]) := by
    funext v
    simp only [avio_wb24, List.cons.injEq, and_true]
    refine ⟨by omega, by omega, by omega⟩
  have e1 : width / 256 % 256 = width / 256 := by omega
  have e2 : height / 256 % 256 = height / 256 := by omega
  have e3 : loop / 256 % 256 = loop / 256 := by omega
  cases pal with
  | none =>
      simp [gif_image_write_header, avio_w8, avio_wl16, ← hsig, e1, e2, e3]
  | some p =>
      simp [gif_image_write_header, avio_w8, avio_wl16, ← hsig, hfun,
        e1, e2, e3]

set_option maxRecDepth 4000 in
/-- C1 witness: width 258, height 3, loop 515, and a concrete 256-entry
global palette. -/
theorem header_layout_witness :
    gif_image_write_header 258 3 515 (some (List.replicate 256 0xAABBCCDD)) =
      ascii "GIF89a" ++
      [258 % 256, 258 / 256, 3 % 256, 3 / 256] ++
      [if (some (List.replicate 256 0xAABBCCDD)).isSome then 0xf7 else 0,
       if (some (List.replicate 256 0xAABBCCDD)).isSome then 0x1f else 0, 0] ++
      (match some (List.replicate 256 0xAABBCCDD) with
       | some p =>
           (p.map (fun v => [v / 65536 % 256, v / 256 % 256, v % 256])).flatten
       | none => []) ++
      [0x21, 0xff, 0x0b] ++ ascii "NETSCAPE2.0" ++
      [0x03, 0x01, 515 % 256, 515 / 256, 0x00] :=
  header_layout 258 3 515 (some (List.replicate 256 0xAABBCCDD))
    (by decide) (by decide) (by decide)
    (fun p hp => by cases hp; simp)

/-- C4 counterexample: `prev_pts` starts at `0` (the private context is
zero-allocated and `gif.c` never assigns it before the first packet), so a
first frame with timestamp 100 gets duration 100, not 0: offsets 4 and 5 of
its control block read `100, 0`. -/
theorem first_frame_duration_cex :
    (initContext { streams := [], loop := 0 }).prev_pts = 0 ∧
    (packetBytes (initContext { streams := [], loop := 0 })
        { pts := 100, data := [], palette := none })[4]? = some 100 ∧
    (packetBytes (initContext { streams := [], loop := 0 })
        { pts := 100, data := [], palette := none })[5]? = some 0 ∧
    durationOf (initContext { streams := [], loop := 0 }).prev_pts 100 = 100 ∧
    (100 : Nat) ≠ 0 := by
  refine ⟨rfl, ?_, ?_, ?_, by decide⟩ <;> decide

/-- C4 (amended): the session's previous-timestamp field starts at `0`, so
the first frame's duration is its own timestamp clamped into `[0, 65535]`
(and `0` for the sentinel) — not `0` for every timestamp. -/
theorem first_frame_duration (s : AVFormatContext) (pts : Int) :
    (initContext s).prev_pts = 0 ∧
    (pts ≠ AV_NOPTS_VALUE →
       durationOf (initContext s).prev_pts pts = av_clip_uint16 pts) ∧
    durationOf (initContext s).prev_pts AV_NOPTS_VALUE = 0 := by
  refine ⟨rfl, ?_, ?_⟩
  · intro hs
    simp [initContext, durationOf, hs]
  · simp [durationOf]

/-- C4 witness: at timestamp 100 the amended statement instantiates. -/
theorem first_frame_duration_witness :
    (initContext { streams := [], loop := 0 }).prev_pts = 0 ∧
    ((100 : Int) ≠ AV_NOPTS_VALUE →
       durationOf (initContext { streams := [], loop := 0 }).prev_pts 100 =
         av_clip_uint16 100) ∧
    durationOf (initContext { streams := [], loop := 0 }).prev_pts
      AV_NOPTS_VALUE = 0 :=
  first_frame_duration { streams := [], loop := 0 } 100

/-- C7: a stream count other than one, a non-video stream, or a non-GIF
codec makes `gif_write_header` return `AVERROR(EINVAL)`; the check precedes
all writes, and the `errorReturn` outcome carries no bytes. -/
theorem header_stream_shape (s : AVFormatContext)
    (h : s.streams.length ≠ 1 ∨
         ∃ st, s.streams = [st] ∧
           (st.codec.codec_type ≠ AVMediaType.video ∨
            st.codec.codec_id ≠ AVCodecID.gif)) :
    gif_write_header s = HeaderOutcome.errorReturn := by
  rcases h with h | ⟨st, hst, hbad⟩
  · rcases hs : s.streams with _ | ⟨a, _ | ⟨b, t⟩⟩
    · simp [gif_write_header, hs]
    · rw [hs] at h; simp at h
    · simp [gif_write_header, hs]
  · simp only [gif_write_header, hst]
    rw [if_pos hbad]

/-- C7 witness: a session with no stream at all is rejected. -/
theorem header_stream_shape_witness :
    gif_write_header { streams := [], loop := 0 } =
      HeaderOutcome.errorReturn :=
  header_stream_shape { streams := [], loop := 0 } (Or.inl (by simp))

/-- C8 counterexample: a single GIF video stream whose pixel format (RGB24)
is neither systematic nor `PAL8` makes `gif_write_header` trip
`av_assert0`, aborting the process; no error is returned to the caller. -/
theorem header_pixfmt_cex :
    gif_write_header
      ⟨[⟨⟨AVMediaType.video, AVCodecID.gif, 4, 4, AVPixelFormat.rgb24⟩⟩], 0⟩ =
      HeaderOutcome.abort ∧
    gif_write_header
      ⟨[⟨⟨AVMediaType.video, AVCodecID.gif, 4, 4, AVPixelFormat.rgb24⟩⟩], 0⟩ ≠
      HeaderOutcome.errorReturn := by
  decide

/-- C8 (amended): when the single GIF video stream's pixel format is neither
resolvable to a systematic palette nor `PAL8`, header writing fails by the
always-enabled assertion `av_assert0` — a process abort before any byte is
written — rather than by returning an error to the caller. -/
theorem header_pixfmt_assert (s : AVFormatContext) (st : AVStream)
    (hst : s.streams = [st])
    (ht : st.codec.codec_type = AVMediaType.video)
    (hc : st.codec.codec_id = AVCodecID.gif)
    (hsys : avpriv_set_systematic_pal2 st.codec.pix_fmt = none)
    (hpal : st.codec.pix_fmt ≠ AVPixelFormat.pal8) :
    gif_write_header s = HeaderOutcome.abort ∧
    ∀ bytes, gif_write_header s ≠ HeaderOutcome.written bytes := by
  have habort : gif_write_header s = HeaderOutcome.abort := by
    simp only [gif_write_header, hst]
    rw [if_neg (by simp [ht, hc]), hsys, if_neg hpal]
  exact ⟨habort, fun bytes => by simp [habort]⟩

/-- C8 witness: the amended statement at the RGB24 configuration. -/
theorem header_pixfmt_assert_witness :
    gif_write_header
      ⟨[⟨⟨AVMediaType.video, AVCodecID.gif, 4, 4, AVPixelFormat.rgb24⟩⟩], 0⟩ =
      HeaderOutcome.abort ∧
    ∀ bytes, gif_write_header
      ⟨[⟨⟨AVMediaType.video, AVCodecID.gif, 4, 4, AVPixelFormat.rgb24⟩⟩], 0⟩ ≠
      HeaderOutcome.written bytes :=
  header_pixfmt_assert _
    ⟨⟨AVMediaType.video, AVCodecID.gif, 4, 4, AVPixelFormat.rgb24⟩⟩
    rfl rfl rfl rfl (by decide)

theorem packetBytes_as_controlBlock (gif : GIFContext) (pkt : AVPacket)
    (hv : ∀ pal, pkt.palette = some pal → pal.length = 256) :
    packetBytes gif pkt =
      controlBlock (transparencyOf pkt.palette).1
        (durationOf gif.prev_pts pkt.pts) (transparencyOf pkt.palette).2 ++
      pkt.data := by
  have h1 : (transparencyOf pkt.palette).1 % 256 = (transparencyOf pkt.palette).1 :=
    Nat.mod_eq_of_lt (transparencyOf_fst_lt _)
  have h2 : (transparencyOf pkt.palette).2 % 256 =
      (transparencyOf pkt.palette).2 := by
    rcases hpal : pkt.palette with _ | pal
    · decide
    · exact Nat.mod_eq_of_lt (transparencyOf_snd_lt pal (hv pal hpal))
  simp [packetBytes, controlBlock, avio_w8, avio_wl16, h1, h2]

theorem writePackets_valid (pkts : List AVPacket) :
    ∀ gif : GIFContext,
      (∀ p ∈ pkts, ∀ pal, p.palette = some pal → pal.length = 256) →
      ∃ ctx, writePackets gif pkts =
        Except.ok (sessionFrames gif.prev_pts pkts, ctx) := by
  induction pkts with
  | nil => intro gif _; exact ⟨gif, rfl⟩
  | cons p ps ih =>
      intro gif hv
      have hp := hv p (List.mem_cons_self p ps)
      obtain ⟨ctx, hctx⟩ := ih { gif with prev_pts := p.pts }
        (fun q hq => hv q (List.mem_cons_of_mem p hq))
      refine ⟨ctx, ?_⟩
      simp only [writePackets, gif_write_packet_valid gif p hp, hctx]
      rw [sessionFrames, packetBytes_as_controlBlock gif p hp,
        List.append_assoc]

/-- C6: a session that writes the header, then the packets in order, then
the trailer produces exactly the header bytes, one 8-byte control block
followed by its frame's payload per packet in arrival order, and a single
trailer byte `0x3B` — nothing else. -/
theorem mux_stream_layout (s : AVFormatContext) (pkts : List AVPacket)
    (hb : List Nat) (hh : gif_write_header s = HeaderOutcome.written hb)
    (hv : ∀ p ∈ pkts, ∀ pal, p.palette = some pal → pal.length = 256) :
    gif_mux s pkts = some (hb ++ sessionFrames 0 pkts ++ [0x3b]) := by
  obtain ⟨ctx, hctx⟩ := writePackets_valid pkts (initContext s) hv
  simp only [gif_mux, hh, hctx]
  rfl

/-- C6 witness: a `PAL8` session writing two frames. -/
theorem mux_stream_layout_witness :
    gif_mux
      ⟨[⟨⟨AVMediaType.video, AVCodecID.gif, 2, 2, AVPixelFormat.pal8⟩⟩], 0⟩
      [⟨1, [7, 7], none⟩, ⟨2, [8], none⟩] =
      some (gif_image_write_header 2 2 0 none ++
        sessionFrames 0 [⟨1, [7, 7], none⟩, ⟨2, [8], none⟩] ++ [0x3b]) :=
  mux_stream_layout
    ⟨[⟨⟨AVMediaType.video, AVCodecID.gif, 2, 2, AVPixelFormat.pal8⟩⟩], 0⟩
    [⟨1, [7, 7], none⟩, ⟨2, [8], none⟩]
    (gif_image_write_header 2 2 0 none) rfl
    (by intro p hp pal hpal
        rcases List.mem_cons.mp hp with rfl | hp2
        · cases hpal
        · rcases List.mem_cons.mp hp2 with rfl | hp3
          · cases hpal
          · cases hp3)

/-- C9: when the smallest alpha is below `0xff`, the transparency index is
the lowest position attaining it (every earlier entry has a strictly larger
alpha); when every entry is fully opaque (`alpha = 0xff`) no entry beats the
initial running minimum, so the index stays at its default `0x1f` and the
transparency flag stays clear (`flags = 0x04`). -/
theorem transparency_tie_and_opaque (pal : List Nat) (_hl : pal.length = 256) :
    (minAlpha pal < 0xff →
       alphaOf (pal.getD (transparencyOf (some pal)).2 0) = minAlpha pal ∧
       ∀ k, k < (transparencyOf (some pal)).2 →
         minAlpha pal < alphaOf (pal.getD k 0)) ∧
    ((∀ v ∈ pal, alphaOf v = 0xff) →
       transparencyOf (some pal) = (0x04, 0x1f)) := by
  constructor
  · intro hmin
    obtain ⟨j, hj, hsnd, hal, hfirst⟩ := palScan_min_lt pal 0xff 0x1f 0 hmin
    have hsnd2 : (transparencyOf (some pal)).2 = j := by
      simp only [transparencyOf]
      rw [hsnd, Nat.zero_add]
    rw [hsnd2]
    exact ⟨hal, hfirst⟩
  · intro hall
    have hge : ∀ v ∈ pal, 0xff ≤ alphaOf v :=
      fun v hv => Nat.le_of_eq (hall v hv).symm
    simp only [transparencyOf]
    rw [palScan_noupdate pal 0xff 0x1f 0 hge]
    decide

set_option maxRecDepth 4000 in
/-- C9 witness: a 256-entry palette in which every entry shares the smallest
alpha `0x28`; the selected transparency index is position 0, the first tie. -/
theorem transparency_tie_and_opaque_witness :
    (minAlpha (List.replicate 256 0x28000000) < 0xff →
       alphaOf ((List.replicate 256 0x28000000).getD
           (transparencyOf (some (List.replicate 256 0x28000000))).2 0) =
         minAlpha (List.replicate 256 0x28000000) ∧
       ∀ k, k < (transparencyOf (some (List.replicate 256 0x28000000))).2 →
         minAlpha (List.replicate 256 0x28000000) <
           alphaOf ((List.replicate 256 0x28000000).getD k 0)) ∧
    ((∀ v ∈ List.replicate 256 0x28000000, alphaOf v = 0xff) →
       transparencyOf (some (List.replicate 256 0x28000000)) = (0x04, 0x1f)) :=
  transparency_tie_and_opaque (List.replicate 256 0x28000000) (by simp)

/-- C10: `gif_write_packet` stores the packet's timestamp into `prev_pts`
even when it is the `AV_NOPTS_VALUE` sentinel, so the next frame's duration
is computed from the sentinel value, independent of the last real
timestamp held in `prev_pts` before. -/
theorem sentinel_prev_update (gif : GIFContext) (pkt nxt : AVPacket)
    (hs : pkt.pts = AV_NOPTS_VALUE) (hn : nxt.pts ≠ AV_NOPTS_VALUE)
    (hv : ∀ pal, pkt.palette = some pal → pal.length = 256) :
    gif_write_packet gif pkt =
      Except.ok (packetBytes gif pkt,
        { gif with prev_pts := AV_NOPTS_VALUE }) ∧
    durationOf
        ({ gif with prev_pts := AV_NOPTS_VALUE } : GIFContext).prev_pts
        nxt.pts =
      av_clip_uint16 (nxt.pts - AV_NOPTS_VALUE) := by
  constructor
  · rw [← hs]
    exact gif_write_packet_valid gif pkt hv
  · simp [durationOf, hn]

/-- C10 witness: a sentinel-timestamp frame (previous real timestamp 42)
followed by a frame at timestamp 5. -/
theorem sentinel_prev_update_witness :
    gif_write_packet { loop := 0, prev_pts := 42 }
        { pts := AV_NOPTS_VALUE, data := [], palette := none } =
      Except.ok (packetBytes { loop := 0, prev_pts := 42 }
          { pts := AV_NOPTS_VALUE, data := [], palette := none },
        { loop := 0, prev_pts := AV_NOPTS_VALUE }) ∧
    durationOf
        ({ loop := 0, prev_pts := AV_NOPTS_VALUE } : GIFContext).prev_pts
        (5 : Int) =
      av_clip_uint16 ((5 : Int) - AV_NOPTS_VALUE) :=
  sentinel_prev_update { loop := 0, prev_pts := 42 }
    { pts := AV_NOPTS_VALUE, data := [], palette := none }
    { pts := 5, data := [], palette := none }
    rfl (by decide) (fun pal hpal => by cases hpal)

end GifMuxer
